import Mathlib

/-!
Verification development for the walker analysis-orchestration engine.

Shallow embedding of the core components (compatibility scorer, strategy
planner, execution planner and dispatcher, module registry, intent parser and
workflow router) of the repository, with theorems settling the stated
properties of each component.

Conventions used throughout the embedding:
* Python `float` values occurring here are small exact rationals, embedded as `ℚ`.
* Python dicts with statically known keys become structures with `Option`
  fields when a key may be absent (`d.get(k)` is then `Option` access, and
  `d[k]` on an absent key models a `KeyError`).
* Python dicts with dynamic keys (parameter sets, data contexts) become
  insertion-ordered association lists `List (String × JVal)` with
  `dictGet` / `dictSet` / `dictUpdate` mirroring `d.get`, `d[k] = v`,
  `d.update`.
* Python string operations used by the code (lowercasing, substring
  membership, `split('_')`) are re-implemented over the character list of a
  `String` so that all definitions are executable by the kernel.  `lower()` is
  modelled on ASCII letters; the CJK characters appearing in the repository
  are unaffected by either implementation.
* Code that raises exceptions is embedded with `Except String`; an
  `Except.error` value models a raised exception.
* `list.sort` in Python is a stable sort; it is embedded as
  `List.insertionSort`, which is stable and sorted for the (total, transitive)
  key relations used here, hence extensionally equal to any stable sort.
-/

/-- Python truthiness and `json`-style values: the dynamically typed values that
flow through parameter dictionaries and LLM responses in the repository. -/
inductive JVal where
  | num (q : ℚ)
  | str (s : String)
  | bool (b : Bool)
  | list (elems : List JVal)
  | dict (entries : List (String × JVal))
  | null

/-- Python `d.get(k)` on an insertion-ordered dictionary: the value at the
first matching key, if any. -/
def dictGet {α : Type} : List (String × α) → String → Option α
  | [], _ => none
  | kv :: rest, k => if kv.1 = k then some kv.2 else dictGet rest k

/-- Python `k in d` membership test on a dictionary. -/
def dictContains {α : Type} : List (String × α) → String → Bool
  | [], _ => false
  | kv :: rest, k => kv.1 = k || dictContains rest k

/-- Python `d[k] = v`: overwrite in place if the key exists (keeping its
position), otherwise append the new key at the end. -/
def dictSet {α : Type} : List (String × α) → String → α → List (String × α)
  | [], k, v => [(k, v)]
  | kv :: rest, k, v => if kv.1 = k then (k, v) :: rest else kv :: dictSet rest k v

/-- Python `d.update(d2)`: set every key of `d2` into `d` in order. -/
def dictUpdate {α : Type} (d d2 : List (String × α)) : List (String × α) :=
  d2.foldl (fun acc kv => dictSet acc kv.1 kv.2) d

/-- Lowercase an ASCII letter, mirroring `str.lower()` on the characters the
repository actually compares (ASCII keywords; CJK characters are fixed points
of `lower()` in both Python and this model). -/
def lowerChar (c : Char) : Char :=
  if 'A' ≤ c ∧ c ≤ 'Z' then Char.ofNat (c.toNat + 32) else c

/-- Python `s.lower()` restricted to ASCII case folding. -/
def strLower (s : String) : String :=
  ⟨s.data.map lowerChar⟩

/-- Decidable list-of-characters prefix test (helper for substring search). -/
def charsPrefix : List Char → List Char → Bool
  | [], _ => true
  | _ :: _, [] => false
  | a :: as, b :: bs => a = b && charsPrefix as bs

/-- Does `needle` occur as a contiguous sublist of the second argument? -/
def charsContains (needle : List Char) : List Char → Bool
  | [] => needle.isEmpty
  | b :: bs => charsPrefix needle (b :: bs) || charsContains needle bs

/-- Python `needle in haystack` on strings (substring containment; the empty
needle is contained in every string). -/
def pyIn (needle haystack : String) : Bool :=
  charsContains needle.data haystack.data

/-- Split a character list at every occurrence of `sep`; `[]` yields `[[]]`,
matching Python `''.split(sep) == ['']`. -/
def splitChars (sep : Char) : List Char → List (List Char)
  | [] => [[]]
  | c :: cs =>
    match splitChars sep cs with
    | [] => [[c]]
    | g :: gs => if c = sep then [] :: g :: gs else (c :: g) :: gs

/-- Python `s.split('_')` (the only split the planner performs). -/
def pySplitUnderscore (s : String) : List String :=
  (splitChars '_' s.data).map (fun l => ⟨l⟩)

/-- Python `int(q)` on a rational: truncation toward zero. -/
def pyInt (q : ℚ) : ℤ :=
  if 0 ≤ q then ⌊q⌋ else ⌈q⌉

/- ------------------------------------------------------------------
Compatibility scorer: `BaseAnalysisModule.check_database_compatibility`
(src/modules/base_module.py, lines 158-206).
------------------------------------------------------------------- -/

/-- Result dictionary of `check_database_compatibility`: compatibility flag,
missing required fields, available optional fields, a score, and an optional
reason (the reason key is only present in the unsupported-database branch). -/
structure CompatibilityResult where
  compatible : Bool
  missing_fields : List String
  available_fields : List String
  score : ℚ
  reason : Option String
deriving DecidableEq

/-- Class-level database-awareness metadata of a `BaseAnalysisModule` subclass
(src/modules/base_module.py, lines 24-31). -/
structure AnalysisModule where
  module_id : String
  module_name : String
  description : String
  supported_databases : List String
  required_fields : List String
  optional_fields : List String
deriving DecidableEq

/-- Embedding of `BaseAnalysisModule.check_database_compatibility`
(src/modules/base_module.py, lines 158-206).  Python list truthiness (a list is
truthy iff non-empty) appears as `≠ []` tests; `score = min(score, 1.0)` is the
final clamping of the returned score. -/
def check_database_compatibility (m : AnalysisModule) (database_type : String)
    (available_fields : List String) : CompatibilityResult :=
  if m.supported_databases ≠ [] ∧ database_type ∉ m.supported_databases then
    { compatible := false
      missing_fields := m.required_fields
      available_fields := []
      score := 0
      reason := some ("不支持数据库类型: " ++ database_type) }
  else
    let missing_fields := m.required_fields.filter (fun f => f ∉ available_fields)
    let available_optional := m.optional_fields.filter (fun f => f ∈ available_fields)
    let cs : Bool × ℚ :=
      if missing_fields ≠ [] then
        (false, 0)
      else
        let base_score : ℚ := 1/2
        let optional_score : ℚ :=
          if m.optional_fields ≠ [] then
            1/2 * ((available_optional.length : ℚ) / ((max m.optional_fields.length 1 : ℕ) : ℚ))
          else
            1/2
        (true, base_score + optional_score)
    { compatible := cs.1
      missing_fields := missing_fields
      available_fields := available_optional
      score := min cs.2 1
      reason := none }

/-- Metadata of the repository's `param_segmenter` module
(src/modules/param_segmenter.py, lines 25-27): it declares supported database
kinds but no required and no optional fields. -/
def param_segmenter_meta : AnalysisModule :=
  { module_id := "param_segmenter"
    module_name := "参数细分模块"
    description := "按指定维度切分数据"
    supported_databases := ["duckdb", "sqlite", "csv", "excel"]
    required_fields := []
    optional_fields := [] }

/-- Claim C1 is false on the code: a capability with no optional fields, no
supported-database conflict and no missing required fields scores 1.0, not the
claimed 0.5 baseline, because the code grants the full 0.5 optional bonus when
`optional_fields` is empty (`... if self.optional_fields else 0.5`). -/
theorem C1_counterexample :
    (check_database_compatibility param_segmenter_meta "csv" ["brand", "date"]).score = 1 ∧
    ¬ (check_database_compatibility param_segmenter_meta "csv" ["brand", "date"]).score = 1/2 := by
  constructor
  · norm_num [check_database_compatibility, param_segmenter_meta]
  · norm_num [check_database_compatibility, param_segmenter_meta]

/-- Amended claim C1: for every capability that declares no optional fields,
whose supported-database list does not exclude the dataset's kind, and whose
required fields are all present, `check_database_compatibility` returns the
score 1.0 exactly (the 0.5 baseline plus the full 0.5 optional bonus that the
code grants when `optional_fields` is empty). -/
theorem C1_no_optional_fields_score_is_one (m : AnalysisModule)
    (database_type : String) (available_fields : List String)
    (hopt : m.optional_fields = [])
    (hdb : m.supported_databases = [] ∨ database_type ∈ m.supported_databases)
    (hreq : ∀ f ∈ m.required_fields, f ∈ available_fields) :
    (check_database_compatibility m database_type available_fields).score = 1 := by
  have hnotdb : ¬ (m.supported_databases ≠ [] ∧ database_type ∉ m.supported_databases) := by
    rcases hdb with h | h
    · simp [h]
    · simp [h]
  have hmiss : m.required_fields.filter (fun f => f ∉ available_fields) = [] := by
    simp only [List.filter_eq_nil_iff]
    intro f hf
    simpa using hreq f hf
  simp only [check_database_compatibility, if_neg hnotdb, hmiss, hopt]
  norm_num

/-- Witness for `C1_no_optional_fields_score_is_one` at the concrete
`param_segmenter` metadata. -/
theorem C1_witness :
    (check_database_compatibility param_segmenter_meta "csv" ["brand"]).score = 1 :=
  C1_no_optional_fields_score_is_one param_segmenter_meta "csv" ["brand"]
    (by rfl) (Or.inr (by simp [param_segmenter_meta])) (by simp [param_segmenter_meta])

/-- Branch characterization of the scorer: the unsupported-database branch. -/
theorem check_database_compatibility_db_conflict (m : AnalysisModule)
    (database_type : String) (available_fields : List String)
    (h : m.supported_databases ≠ [] ∧ database_type ∉ m.supported_databases) :
    check_database_compatibility m database_type available_fields =
      { compatible := false
        missing_fields := m.required_fields
        available_fields := []
        score := 0
        reason := some ("不支持数据库类型: " ++ database_type) } := by
  simp only [check_database_compatibility, if_pos h]

/-- Branch characterization of the scorer: the missing-required-fields branch. -/
theorem check_database_compatibility_missing (m : AnalysisModule)
    (database_type : String) (available_fields : List String)
    (h1 : ¬ (m.supported_databases ≠ [] ∧ database_type ∉ m.supported_databases))
    (h2 : m.required_fields.filter (fun f => f ∉ available_fields) ≠ []) :
    check_database_compatibility m database_type available_fields =
      { compatible := false
        missing_fields := m.required_fields.filter (fun f => f ∉ available_fields)
        available_fields := m.optional_fields.filter (fun f => f ∈ available_fields)
        score := 0
        reason := none } := by
  simp only [check_database_compatibility, if_neg h1, if_pos h2]
  norm_num

/-- Branch characterization of the scorer: the compatible branch, with its
optional-field bonus. -/
theorem check_database_compatibility_ok (m : AnalysisModule)
    (database_type : String) (available_fields : List String)
    (h1 : ¬ (m.supported_databases ≠ [] ∧ database_type ∉ m.supported_databases))
    (h2 : ¬ m.required_fields.filter (fun f => f ∉ available_fields) ≠ []) :
    check_database_compatibility m database_type available_fields =
      { compatible := true
        missing_fields := m.required_fields.filter (fun f => f ∉ available_fields)
        available_fields := m.optional_fields.filter (fun f => f ∈ available_fields)
        score := min (1/2 +
          (if m.optional_fields ≠ [] then
            1/2 * (((m.optional_fields.filter (fun f => f ∈ available_fields)).length : ℚ) /
              ((max m.optional_fields.length 1 : ℕ) : ℚ))
          else 1/2)) 1
        reason := none } := by
  simp only [check_database_compatibility, if_neg h1, if_neg h2]

/-- Nonnegativity of the optional-field bonus term of the scorer. -/
theorem optional_bonus_nonneg (m : AnalysisModule) (available_fields : List String) :
    (0 : ℚ) ≤ (if m.optional_fields ≠ [] then
        1/2 * (((m.optional_fields.filter (fun f => f ∈ available_fields)).length : ℚ) /
          ((max m.optional_fields.length 1 : ℕ) : ℚ))
      else 1/2) := by
  split
  · exact mul_nonneg (by norm_num) (div_nonneg (by positivity) (by positivity))
  · norm_num

/-- Metadata of the repository's `sales_query` module
(src/modules/sales_query_module.py, lines 47-49): supported databases exclude
`csv`, and two fields are required. -/
def sales_query_meta : AnalysisModule :=
  { module_id := "sales_query"
    module_name := "销量查询模块"
    description := "查询销量数据"
    supported_databases := ["parquet", "duckdb", "pandas"]
    required_fields := ["sales_volume", "date"]
    optional_fields := ["company", "region"] }

/-- Claim C5 is false as stated on the code: when the database-type check
fails, `missing_fields` is the full `required_fields` list, not the list of
required fields actually absent from the dataset.  Here `sales_volume` is
present in the dataset, only `date` is missing, yet the result reports both. -/
theorem C5_counterexample :
    ("date" ∉ ["sales_volume", "brand"] ∧
      (sales_query_meta.required_fields.filter (fun f => f ∉ ["sales_volume", "brand"])) = ["date"]) ∧
    (check_database_compatibility sales_query_meta "csv" ["sales_volume", "brand"]).missing_fields
      = ["sales_volume", "date"] := by
  refine ⟨⟨by decide, by decide⟩, ?_⟩
  simp [check_database_compatibility, sales_query_meta]

/-- Amended claim C5: the score always lies in `[0,1]`; whenever the result is
incompatible the score is 0; and when the database-type check passes (no
supported-database conflict) and some required field is absent, the result is
incompatible with score 0 and `missing_fields` exactly the required fields
absent from the dataset.  (On a database-type conflict, `missing_fields` is
instead the full required list.) -/
theorem C5_score_range_and_missing_fields (m : AnalysisModule)
    (database_type : String) (available_fields : List String) :
    (0 ≤ (check_database_compatibility m database_type available_fields).score ∧
      (check_database_compatibility m database_type available_fields).score ≤ 1) ∧
    ((check_database_compatibility m database_type available_fields).compatible = false →
      (check_database_compatibility m database_type available_fields).score = 0) ∧
    (¬ (m.supported_databases ≠ [] ∧ database_type ∉ m.supported_databases) →
      m.required_fields.filter (fun f => f ∉ available_fields) ≠ [] →
      (check_database_compatibility m database_type available_fields).compatible = false ∧
        (check_database_compatibility m database_type available_fields).score = 0 ∧
        (check_database_compatibility m database_type available_fields).missing_fields
          = m.required_fields.filter (fun f => f ∉ available_fields)) := by
  by_cases h1 : m.supported_databases ≠ [] ∧ database_type ∉ m.supported_databases
  · rw [check_database_compatibility_db_conflict m database_type available_fields h1]
    refine ⟨by norm_num, fun _ => rfl, fun hc _ => absurd h1 hc⟩
  · by_cases h2 : m.required_fields.filter (fun f => f ∉ available_fields) ≠ []
    · rw [check_database_compatibility_missing m database_type available_fields h1 h2]
      exact ⟨by norm_num, fun _ => rfl, fun _ _ => ⟨rfl, rfl, rfl⟩⟩
    · rw [check_database_compatibility_ok m database_type available_fields h1 h2]
      refine ⟨⟨?_, min_le_right _ _⟩, ?_, ?_⟩
      · simp only [le_min_iff]
        refine ⟨?_, by norm_num⟩
        linarith [optional_bonus_nonneg m available_fields]
      · intro hcomp
        exact absurd hcomp (by simp)
      · intro _ hc
        exact absurd hc h2

/-- Witness for `C5_score_range_and_missing_fields`, instantiating the
missing-required-field branch at the spec's Scenario B: a capability requiring
only `date` against a dataset with fields `a`, `b`. -/
theorem C5_witness :
    (check_database_compatibility
        { module_id := "m", module_name := "m", description := ""
          supported_databases := [], required_fields := ["date"], optional_fields := [] }
        "csv" ["a", "b"]).compatible = false ∧
      (check_database_compatibility
        { module_id := "m", module_name := "m", description := ""
          supported_databases := [], required_fields := ["date"], optional_fields := [] }
        "csv" ["a", "b"]).score = 0 ∧
      (check_database_compatibility
        { module_id := "m", module_name := "m", description := ""
          supported_databases := [], required_fields := ["date"], optional_fields := [] }
        "csv" ["a", "b"]).missing_fields
        = List.filter (fun f => f ∉ ["a", "b"]) ["date"] :=
  (C5_score_range_and_missing_fields
      { module_id := "m", module_name := "m", description := ""
        supported_databases := [], required_fields := ["date"], optional_fields := [] }
      "csv" ["a", "b"]).2.2 (by simp) (by simp)

/- ------------------------------------------------------------------
Strategy planner: `Walker.generate_strategies` and its helpers
(src/core/walker.py, lines 240-520).
------------------------------------------------------------------- -/

/-- One entry of a module's `parameter_requirements` list (consumed by the
planner from the module configuration). -/
structure ParameterRequirement where
  name : String
  type : String
  required : Bool
  default_value : Option JVal

/-- The `info` dictionary of a registered module: the fields of the module
configuration that the planner reads. -/
structure ModuleInfo where
  module_id : String
  module_name : String
  description : String
  parameter_requirements : List ParameterRequirement

/-- One entry of `Walker.available_databases` (src/core/walker.py): the keys
the planner reads from a database-info dictionary. -/
structure DatabaseInfo where
  name : String
  type : String
  path : Option String
  table_name : Option String
  fields : List String
  size : Nat
deriving DecidableEq

/-- The slice of the `user_intent` dictionary read by `generate_strategies`:
`target`, `parameters`, and the `modules_needed` / `execution_order` lists of
`analysis_requirements`. -/
structure UserIntent where
  target : String
  parameters : List (String × JVal)
  modules_needed : List String
  execution_order : List String

/-- A module instance as seen by the planner: the planner only calls its
`check_database_compatibility` method (dynamically dispatched, so subclasses
such as `data_describe` may override the base formula). -/
structure ModuleInstance where
  check_database_compatibility : String → List String → CompatibilityResult

/-- The base-class behaviour: a module instance whose compatibility check is
`BaseAnalysisModule.check_database_compatibility` on its own metadata. -/
def baseInstance (m : AnalysisModule) : ModuleInstance :=
  { check_database_compatibility := check_database_compatibility m }

/-- One entry of `Walker.registered_modules`: configuration info plus the
(lazily created) module instance.  `none` models a module whose instance is
missing and whose lazy instantiation fails, which `generate_strategies` skips
with `continue`. -/
structure RegisteredModule where
  info : ModuleInfo
  module_instance : Option ModuleInstance

/-- The planner state read by `generate_strategies`: the insertion-ordered
registry of modules and the database catalog. -/
structure WalkerState where
  registered_modules : List (String × RegisteredModule)
  available_databases : List DatabaseInfo

/-- The `ModuleStrategy` dataclass (src/core/walker.py, lines 25-40), minus
the `module_instance` object reference and the unused `dependencies` field. -/
structure ModuleStrategy where
  module_id : String
  module_name : String
  parameters : List (String × JVal)
  database_info : DatabaseInfo
  compatibility_score : ℚ
  priority : ℤ
  estimated_execution_time : ℚ

/-- Python `db_info.get('path') or db_info.get('table_name', '')`: the first
operand wins when truthy (present and non-empty). -/
def data_source_of (db : DatabaseInfo) : String :=
  match db.path with
  | some p => if p ≠ "" then p else db.table_name.getD ""
  | none => db.table_name.getD ""

/-- Embedding of `Walker._generate_parameter_combinations` (src/core/walker.py,
lines 407-440); the unused `user_intent` argument of the Python function is
dropped.  A required, absent parameter is filled from its default value; a
required, absent boolean with no default fans every combination out into a
`True` and a `False` copy. -/
def generate_parameter_combinations (param_requirements : List ParameterRequirement)
    (base_params : List (String × JVal)) : List (List (String × JVal)) :=
  param_requirements.foldl
    (fun combinations req =>
      if dictContains base_params req.name then
        combinations
      else if req.required then
        match req.default_value with
        | some dv => combinations.map (fun combo => dictSet combo req.name dv)
        | none =>
          if req.type = "boolean" then
            combinations.flatMap (fun combo =>
              [dictSet combo req.name (JVal.bool true), dictSet combo req.name (JVal.bool false)])
          else
            combinations
      else
        combinations)
    [base_params]

/-- Embedding of `Walker._generate_parameter_candidates` (src/core/walker.py,
lines 376-405). -/
def generate_parameter_candidates (info : ModuleInfo) (user_intent : UserIntent)
    (db : DatabaseInfo) : List (List (String × JVal)) :=
  let base_params :=
    dictUpdate [("data_source", JVal.str (data_source_of db))] user_intent.parameters
  let candidates :=
    if info.parameter_requirements.isEmpty then
      [base_params]
    else
      generate_parameter_combinations info.parameter_requirements base_params
  if candidates.isEmpty then [base_params] else candidates

/-- Embedding of `Walker._calculate_intent_match` (src/core/walker.py, lines
463-480): the lowercased target is split on `'_'`, and each token found as a
substring of the lowercased module name or description counts 1.0 toward the
match score, normalized by the token count and capped at 1. -/
def calculate_intent_match (info : ModuleInfo) (user_intent : UserIntent) : ℚ :=
  let intent_target := strLower user_intent.target
  let module_name := strLower info.module_name
  let module_desc := strLower info.description
  let keywords := pySplitUnderscore intent_target
  let match_score : ℚ :=
    (keywords.countP (fun k => pyIn k module_name || pyIn k module_desc) : ℚ)
  min (match_score / ((max keywords.length 1 : ℕ) : ℚ)) 1

/-- Embedding of `Walker._calculate_parameter_completeness` (src/core/walker.py,
lines 482-495). -/
def calculate_parameter_completeness (info : ModuleInfo)
    (params : List (String × JVal)) : ℚ :=
  if info.parameter_requirements.isEmpty then 1
  else
    let required_params := info.parameter_requirements.filter (fun req => req.required)
    if required_params.isEmpty then 1
    else
      ((required_params.countP (fun req => dictContains params req.name) : ℚ) /
        (required_params.length : ℚ))

/-- Embedding of `Walker._calculate_strategy_priority` (src/core/walker.py,
lines 442-461): compatibility weight 0-50, intent-match weight 0-30, parameter
completeness weight 0-20, each truncated by Python `int(...)`. -/
def calculate_strategy_priority (info : ModuleInfo) (user_intent : UserIntent)
    (compatibility : CompatibilityResult) (params : List (String × JVal)) : ℤ :=
  pyInt (compatibility.score * 50) +
    pyInt (calculate_intent_match info user_intent * 30) +
    pyInt (calculate_parameter_completeness info params * 20)

/-- Embedding of `Walker._estimate_execution_time` (src/core/walker.py, lines
497-520); the unused `params` argument is dropped. -/
def estimate_execution_time (info : ModuleInfo) (db : DatabaseInfo) : ℚ :=
  let base_time : ℚ := 1
  let base_time := if db.size > 1000000 then base_time * 3
    else if db.size > 100000 then base_time * 2 else base_time
  let desc := strLower info.description
  let indicators : List Bool :=
    [pyIn "visualization" desc, pyIn "machine_learning" desc, pyIn "statistical" desc]
  let complexity_multiplier : ℚ := 1 + (indicators.countP id : ℚ) * (1/2)
  base_time * complexity_multiplier

/-- Descending priority: the sort key relation of
`strategies.sort(key=lambda x: x.priority, reverse=True)`. -/
def strategyDescOrder (a b : ModuleStrategy) : Prop :=
  b.priority ≤ a.priority

instance : DecidableRel strategyDescOrder :=
  fun a b => inferInstanceAs (Decidable (b.priority ≤ a.priority))

instance : IsTotal ModuleStrategy strategyDescOrder :=
  ⟨fun a b => le_total b.priority a.priority⟩

instance : IsTrans ModuleStrategy strategyDescOrder :=
  ⟨fun _ _ _ h1 h2 => le_trans h2 h1⟩

/-- Embedding of `Walker.generate_strategies` (src/core/walker.py, lines
240-349).  For each required module (default `data_describe`) and each
database, compatible pairs above the threshold contribute one strategy per
parameter candidate; the list is then stably sorted by priority descending
(Python's stable `sort` embedded as a stable insertion sort) and truncated. -/
def generate_strategies (w : WalkerState) (user_intent : UserIntent)
    (max_strategies : Nat) (min_compatibility_score : ℚ) : List ModuleStrategy :=
  let required_modules :=
    if user_intent.modules_needed = [] then ["data_describe"] else user_intent.modules_needed
  let execution_order :=
    if user_intent.modules_needed = [] then ["data_describe"] else user_intent.execution_order
  let strategies := required_modules.enum.flatMap (fun p =>
    match (w.registered_modules.find? (fun kv => kv.1 = p.2)).map (fun kv => kv.2) with
    | Option.none => []
    | some md =>
      match md.module_instance with
      | Option.none => []
      | some inst =>
        w.available_databases.flatMap (fun db =>
          let compatibility := inst.check_database_compatibility db.type db.fields
          if compatibility.compatible = true ∧ min_compatibility_score ≤ compatibility.score then
            (generate_parameter_candidates md.info user_intent db).map (fun params =>
              let base_priority :=
                calculate_strategy_priority md.info user_intent compatibility params
              let order_bonus : ℤ :=
                if p.2 ∈ execution_order then ((execution_order.length : ℤ) - (p.1 : ℤ)) * 10
                else 0
              { module_id := p.2
                module_name := md.info.module_name
                parameters := params
                database_info := db
                compatibility_score := compatibility.score
                priority := base_priority + order_bonus
                estimated_execution_time := estimate_execution_time md.info db })
          else []))
  (strategies.insertionSort strategyDescOrder).take max_strategies

/-- Amended claim C2: every strategy list returned by `generate_strategies` is
sorted by priority descending and has length at most `max_strategies`.  Ties in
priority keep generation order (the order of `modules_needed`, then the
database catalog, then the parameter candidates), because Python's stable sort
uses only the priority key; they are not re-broken by compatibility score or
by registration order. -/
theorem C2_sorted_and_bounded (w : WalkerState) (user_intent : UserIntent)
    (max_strategies : Nat) (min_compatibility_score : ℚ) :
    List.Sorted strategyDescOrder
        (generate_strategies w user_intent max_strategies min_compatibility_score) ∧
      (generate_strategies w user_intent max_strategies min_compatibility_score).length
        ≤ max_strategies := by
  unfold generate_strategies
  constructor
  · exact (List.sorted_insertionSort strategyDescOrder _).sublist (List.take_sublist _ _)
  · rw [List.length_take]
    exact min_le_left _ _

/-- Metadata of the first-registered counterexample module for claim C2. -/
def alpha_meta : AnalysisModule :=
  { module_id := "alpha"
    module_name := "alpha module"
    description := ""
    supported_databases := []
    required_fields := []
    optional_fields := ["a1", "a2", "a3", "a4", "a5", "a6", "a7"] }

/-- Metadata of the second-registered counterexample module for claim C2. -/
def beta_meta : AnalysisModule :=
  { module_id := "beta"
    module_name := "beta module"
    description := ""
    supported_databases := []
    required_fields := []
    optional_fields := ["b1", "b2", "b3", "b4", "b5"] }

/-- Database catalog entry used by the C2 counterexample. -/
def dbC2 : DatabaseInfo :=
  { name := "db1", type := "csv", path := some "data", table_name := none
    fields := ["b1", "b2", "a1", "a2", "a3"], size := 0 }

/-- Module-info record of the `alpha` counterexample module. -/
def alphaInfo : ModuleInfo :=
  { module_id := "alpha", module_name := "alpha module", description := ""
    parameter_requirements := [] }

/-- Module-info record of the `beta` counterexample module. -/
def betaInfo : ModuleInfo :=
  { module_id := "beta", module_name := "beta module", description := ""
    parameter_requirements := [] }

/-- Walker state for the C2 counterexample: `alpha` is registered before
`beta`. -/
def walkerC2 : WalkerState :=
  { registered_modules :=
      [("alpha", { info := alphaInfo, module_instance := some (baseInstance alpha_meta) }),
       ("beta", { info := betaInfo, module_instance := some (baseInstance beta_meta) })]
    available_databases := [dbC2] }

/-- User intent for the C2 counterexample: `beta` is requested before
`alpha`, and no execution order is declared. -/
def intentC2 : UserIntent :=
  { target := "", parameters := [], modules_needed := ["beta", "alpha"]
    execution_order := [] }

/-- Claim C2's tie-break is false on the code: both strategies get priority 85,
but the returned order is `beta` (score 7/10) before `alpha` (score 5/7), so
equal-priority ties are broken neither by compatibility score descending
(7/10 < 5/7) nor by registration order (`alpha` was registered first); the
stable sort keeps generation order. -/
theorem C2_counterexample :
    (generate_strategies walkerC2 intentC2 5 (1/2)).map (fun s => s.module_id)
        = ["beta", "alpha"] ∧
      (generate_strategies walkerC2 intentC2 5 (1/2)).map (fun s => s.priority)
        = [85, 85] ∧
      (generate_strategies walkerC2 intentC2 5 (1/2)).map (fun s => s.compatibility_score)
        = [7/10, 5/7] ∧
      ((7 : ℚ)/10 < 5/7) := by
  have halpha : check_database_compatibility alpha_meta "csv" dbC2.fields =
      { compatible := true, missing_fields := [], available_fields := ["a1", "a2", "a3"]
        score := 5/7, reason := none } := by
    rw [check_database_compatibility_ok alpha_meta "csv" dbC2.fields (by decide) (by decide)]
    rw [show alpha_meta.required_fields.filter (fun f => f ∉ dbC2.fields) = [] from by decide]
    rw [show alpha_meta.optional_fields.filter (fun f => f ∈ dbC2.fields)
        = ["a1", "a2", "a3"] from by decide]
    rw [if_pos (show alpha_meta.optional_fields ≠ [] from by decide)]
    norm_num [alpha_meta, min_def]
  have hbeta : check_database_compatibility beta_meta "csv" dbC2.fields =
      { compatible := true, missing_fields := [], available_fields := ["b1", "b2"]
        score := 7/10, reason := none } := by
    rw [check_database_compatibility_ok beta_meta "csv" dbC2.fields (by decide) (by decide)]
    rw [show beta_meta.required_fields.filter (fun f => f ∉ dbC2.fields) = [] from by decide]
    rw [show beta_meta.optional_fields.filter (fun f => f ∈ dbC2.fields)
        = ["b1", "b2"] from by decide]
    rw [if_pos (show beta_meta.optional_fields ≠ [] from by decide)]
    norm_num [beta_meta, min_def]
  have hmatchA : calculate_intent_match alphaInfo intentC2 = 1 := by
    have hk : pySplitUnderscore (strLower intentC2.target) = [""] := by decide
    simp only [calculate_intent_match, hk]
    norm_num [List.countP, List.countP.go, pyIn, charsContains, strLower, min_def]
  have hmatchB : calculate_intent_match betaInfo intentC2 = 1 := by
    have hk : pySplitUnderscore (strLower intentC2.target) = [""] := by decide
    simp only [calculate_intent_match, hk]
    norm_num [List.countP, List.countP.go, pyIn, charsContains, strLower, min_def]
  have hcandA : generate_parameter_candidates alphaInfo intentC2 dbC2
      = [[("data_source", JVal.str "data")]] := rfl
  have hcandB : generate_parameter_candidates betaInfo intentC2 dbC2
      = [[("data_source", JVal.str "data")]] := rfl
  have hprioA : calculate_strategy_priority alphaInfo intentC2
      { compatible := true, missing_fields := [], available_fields := ["a1", "a2", "a3"]
        score := 5/7, reason := none }
      [("data_source", JVal.str "data")] = 85 := by
    have hcompl : calculate_parameter_completeness alphaInfo
        [("data_source", JVal.str "data")] = 1 := rfl
    norm_num [calculate_strategy_priority, hmatchA, hcompl, pyInt]
  have hprioB : calculate_strategy_priority betaInfo intentC2
      { compatible := true, missing_fields := [], available_fields := ["b1", "b2"]
        score := 7/10, reason := none }
      [("data_source", JVal.str "data")] = 85 := by
    have hcompl : calculate_parameter_completeness betaInfo
        [("data_source", JVal.str "data")] = 1 := rfl
    norm_num [calculate_strategy_priority, hmatchB, hcompl, pyInt]
  have hfindA : (walkerC2.registered_modules.find? (fun kv => kv.1 = "alpha")).map
      (fun kv => kv.2)
      = some { info := alphaInfo, module_instance := some (baseInstance alpha_meta) } := rfl
  have hfindB : (walkerC2.registered_modules.find? (fun kv => kv.1 = "beta")).map
      (fun kv => kv.2)
      = some { info := betaInfo, module_instance := some (baseInstance beta_meta) } := rfl
  have hmn : intentC2.modules_needed = ["beta", "alpha"] := rfl
  have heo : intentC2.execution_order = [] := rfl
  have henum : (["beta", "alpha"] : List String).enum = [(0, "beta"), (1, "alpha")] := rfl
  have hdbs : walkerC2.available_databases = [dbC2] := rfl
  have hdbt : dbC2.type = "csv" := rfl
  have hne : ((["beta", "alpha"] : List String) = []) = False := eq_false (by decide)
  refine ⟨?_, ?_, ?_, by norm_num⟩ <;>
  · norm_num [generate_strategies, hmn, heo, henum, hne, hfindA, hfindB, hdbs, hdbt,
      baseInstance, halpha, hbeta, hcandA, hcandB, hprioA, hprioB,
      List.flatMap_cons, List.flatMap_nil,
      List.insertionSort, List.orderedInsert, strategyDescOrder]

/-- Whitespace tokenization as worded by claim C4: split on spaces and drop
empty tokens. -/
def whitespaceTokens (s : String) : List String :=
  ((splitChars ' ' s.data).map (fun l => (⟨l⟩ : String))).filter (fun w => w ≠ "")

/-- Stated from claim C4's words, for comparison with the code: the fraction of
whitespace-tokenized words of the target label found in the capability's name
or description. -/
def claimed_intent_match (info : ModuleInfo) (user_intent : UserIntent) : ℚ :=
  let words := whitespaceTokens (strLower user_intent.target)
  ((words.filter (fun wd =>
      pyIn wd (strLower info.module_name) || pyIn wd (strLower info.description))).length : ℚ) /
    ((max words.length 1 : ℕ) : ℚ)

/-- Stated from claim C4's words: the priority formula with whitespace-based
intent match. -/
def claimed_strategy_priority (info : ModuleInfo) (user_intent : UserIntent)
    (compatibility : CompatibilityResult) (params : List (String × JVal)) : ℤ :=
  ⌊compatibility.score * 50⌋ + ⌊claimed_intent_match info user_intent * 30⌋ +
    ⌊calculate_parameter_completeness info params * 20⌋

/-- Capability info for the C4 counterexample. -/
def trendInfo : ModuleInfo :=
  { module_id := "trend_analysis", module_name := "trend analysis of sales"
    description := "", parameter_requirements := [] }

/-- User intent for the C4 counterexample: the target label contains a space,
not an underscore. -/
def trendIntent : UserIntent :=
  { target := "trend sales", parameters := [], modules_needed := [], execution_order := [] }

/-- Compatibility result fed to the priority calculation in the C4
counterexample. -/
def compatC4 : CompatibilityResult :=
  { compatible := true, missing_fields := [], available_fields := [], score := 1/2
    reason := none }

/-- Claim C4 is false on the code: the code splits the target label on
underscores (`intent_target.split('_')`), not on whitespace, so for the target
"trend sales" against a capability named "trend analysis of sales" the code's
intent match is 0 (the single token "trend sales" is not a substring) and the
priority is 45, while the claimed whitespace-tokenized formula yields full
match and priority 75. -/
theorem C4_counterexample :
    calculate_strategy_priority trendInfo trendIntent compatC4 [] = 45 ∧
      claimed_strategy_priority trendInfo trendIntent compatC4 [] = 75 ∧
      calculate_strategy_priority trendInfo trendIntent compatC4 []
        ≠ claimed_strategy_priority trendInfo trendIntent compatC4 [] := by
  have hm : calculate_intent_match trendInfo trendIntent = 0 := by
    have hk : pySplitUnderscore (strLower trendIntent.target) = ["trend sales"] := by decide
    have hc : List.countP (fun k =>
        pyIn k (strLower trendInfo.module_name) || pyIn k (strLower trendInfo.description))
        ["trend sales"] = 0 := by decide
    simp only [calculate_intent_match, hk, hc]
    norm_num [min_def]
  have hcompl : calculate_parameter_completeness trendInfo [] = 1 := rfl
  have h1 : calculate_strategy_priority trendInfo trendIntent compatC4 [] = 45 := by
    norm_num [calculate_strategy_priority, hm, hcompl, pyInt, compatC4]
  have h2 : claimed_strategy_priority trendInfo trendIntent compatC4 [] = 75 := by
    have hw : whitespaceTokens (strLower trendIntent.target) = ["trend", "sales"] := by decide
    have hf : List.filter (fun wd =>
        pyIn wd (strLower trendInfo.module_name) || pyIn wd (strLower trendInfo.description))
        ["trend", "sales"] = ["trend", "sales"] := by decide
    simp only [claimed_strategy_priority, claimed_intent_match, hw, hf]
    norm_num [hcompl, compatC4]
  exact ⟨h1, h2, by rw [h1, h2]; decide⟩

/-- Python `int(...)` agrees with the floor on nonnegative rationals. -/
theorem pyInt_of_nonneg (q : ℚ) (h : 0 ≤ q) : pyInt q = ⌊q⌋ :=
  if_pos h

/-- The code's intent match is always in `[0, 1]`; nonnegativity suffices for
`int(...)` to be a floor. -/
theorem calculate_intent_match_nonneg (info : ModuleInfo) (user_intent : UserIntent) :
    0 ≤ calculate_intent_match info user_intent := by
  simp only [calculate_intent_match]
  exact le_min (div_nonneg (by positivity) (by positivity)) (by norm_num)

/-- The code's parameter completeness is nonnegative. -/
theorem calculate_parameter_completeness_nonneg (info : ModuleInfo)
    (params : List (String × JVal)) :
    0 ≤ calculate_parameter_completeness info params := by
  simp only [calculate_parameter_completeness]
  split
  · norm_num
  · split
    · norm_num
    · exact div_nonneg (by positivity) (by positivity)

/-- Amended claim C4: the base priority is
`floor(score*50) + floor(intentMatch*30) + floor(paramCompleteness*20)`, where
`intentMatch` is the capped fraction of underscore-separated tokens of the
lowercased target label occurring as substrings of the capability's lowercased
name or description — not of whitespace-tokenized words. -/
theorem C4_priority_formula (info : ModuleInfo) (user_intent : UserIntent)
    (compatibility : CompatibilityResult) (params : List (String × JVal))
    (h : 0 ≤ compatibility.score) :
    calculate_strategy_priority info user_intent compatibility params =
      ⌊compatibility.score * 50⌋ +
        ⌊(min
            ((((pySplitUnderscore (strLower user_intent.target)).filter (fun k =>
                pyIn k (strLower info.module_name) || pyIn k (strLower info.description))).length : ℚ) /
              ((max (pySplitUnderscore (strLower user_intent.target)).length 1 : ℕ) : ℚ)) 1) * 30⌋ +
        ⌊calculate_parameter_completeness info params * 20⌋ := by
  have hmatch : calculate_intent_match info user_intent =
      min
        ((((pySplitUnderscore (strLower user_intent.target)).filter (fun k =>
            pyIn k (strLower info.module_name) || pyIn k (strLower info.description))).length : ℚ) /
          ((max (pySplitUnderscore (strLower user_intent.target)).length 1 : ℕ) : ℚ)) 1 := by
    simp only [calculate_intent_match, List.countP_eq_length_filter]
  have e1 : pyInt (compatibility.score * 50) = ⌊compatibility.score * 50⌋ :=
    pyInt_of_nonneg _ (mul_nonneg h (by norm_num))
  have e2 : pyInt (calculate_intent_match info user_intent * 30) =
      ⌊calculate_intent_match info user_intent * 30⌋ :=
    pyInt_of_nonneg _ (mul_nonneg (calculate_intent_match_nonneg info user_intent) (by norm_num))
  have e3 : pyInt (calculate_parameter_completeness info params * 20) =
      ⌊calculate_parameter_completeness info params * 20⌋ :=
    pyInt_of_nonneg _
      (mul_nonneg (calculate_parameter_completeness_nonneg info params) (by norm_num))
  simp only [calculate_strategy_priority]
  rw [e1, e2, e3, hmatch]

/-- Witness for `C4_priority_formula` at the C4 counterexample's concrete
input. -/
theorem C4_witness :
    calculate_strategy_priority trendInfo trendIntent compatC4 [] =
      ⌊compatC4.score * 50⌋ +
        ⌊(min
            ((((pySplitUnderscore (strLower trendIntent.target)).filter (fun k =>
                pyIn k (strLower trendInfo.module_name) ||
                  pyIn k (strLower trendInfo.description))).length : ℚ) /
              ((max (pySplitUnderscore (strLower trendIntent.target)).length 1 : ℕ) : ℚ)) 1) * 30⌋ +
        ⌊calculate_parameter_completeness trendInfo [] * 20⌋ :=
  C4_priority_formula trendInfo trendIntent compatC4 [] (by norm_num [compatC4])

/- ------------------------------------------------------------------
Execution planner and dispatcher: `ModuleExecutor.create_execution_plan` and
`ModuleExecutor.execute_plan` (src/core/module_executor.py, lines 264-346).
------------------------------------------------------------------- -/

/-- One strategy dictionary as consumed by `create_execution_plan`: the keys it
reads, with `module_id` possibly absent (`strat.get("module_id")`) and
`priority` defaulted to 1 (`strat.get("priority", 1)`). -/
structure StrategyDict where
  module_id : Option String
  parameters : List (String × JVal)
  database_info : List (String × JVal)
  priority : Option ℤ

/-- One execution-plan step dictionary.  All five keys are present on the
dictionaries built by `create_execution_plan`; `execute_plan` accesses them
with `step[...]`, so an absent key there models a `KeyError`. -/
structure PlanStep where
  step_id : Option Nat
  module_id : Option String
  parameters : Option (List (String × JVal))
  database_info : Option (List (String × JVal))
  priority : Option ℤ

/-- The step dictionary appended for the strategy at 0-based index `i`
(src/core/module_executor.py, lines 285-291): `step_id` is the 1-based original
index. -/
def planStepOf (i : Nat) (strat : StrategyDict) (mid : String) : PlanStep :=
  { step_id := some (i + 1)
    module_id := some mid
    parameters := some strat.parameters
    database_info := some strat.database_info
    priority := some (strat.priority.getD 1) }

/-- The loop body of `create_execution_plan`: enumerate the strategies, keep
those whose `module_id` is a loaded module, and build their step dictionaries. -/
def keptSteps (loaded_modules : List String) (strategies : List StrategyDict) : List PlanStep :=
  strategies.enum.filterMap (fun p =>
    match p.2.module_id with
    | some mid => if mid ∈ loaded_modules then some (planStepOf p.1 p.2 mid) else none
    | none => none)

/-- Ascending priority: the sort key relation of
`execution_plan.sort(key=lambda x: x.get("priority", 1))`. -/
def planAscOrder (a b : PlanStep) : Prop :=
  a.priority.getD 1 ≤ b.priority.getD 1

instance : DecidableRel planAscOrder :=
  fun a b => inferInstanceAs (Decidable (a.priority.getD 1 ≤ b.priority.getD 1))

instance : IsTotal PlanStep planAscOrder :=
  ⟨fun a b => le_total (a.priority.getD 1) (b.priority.getD 1)⟩

instance : IsTrans PlanStep planAscOrder :=
  ⟨fun _ _ _ h1 h2 => le_trans h1 h2⟩

/-- Embedding of `ModuleExecutor.create_execution_plan`
(src/core/module_executor.py, lines 264-299): filter to loaded modules, assign
1-based step ids from the original enumeration, then stably sort by priority
ascending. -/
def create_execution_plan (loaded_modules : List String)
    (strategies : List StrategyDict) : List PlanStep :=
  (keptSteps loaded_modules strategies).insertionSort planAscOrder

/-- Claim C6: `create_execution_plan` keeps exactly the strategies whose module
id is loaded, each step carries the 1-based index of its strategy in the
original list together with that strategy's parameters, database info and
priority (defaulted to 1), and the returned plan is a permutation of those
steps sorted ascending by priority. -/
theorem C6_plan_filtered_sorted (loaded_modules : List String)
    (strategies : List StrategyDict) :
    List.Sorted planAscOrder (create_execution_plan loaded_modules strategies) ∧
      (create_execution_plan loaded_modules strategies).Perm
        (keptSteps loaded_modules strategies) ∧
      (∀ st ∈ create_execution_plan loaded_modules strategies,
        ∃ i, ∃ h : i < strategies.length,
          (strategies.get ⟨i, h⟩).module_id = st.module_id ∧
            st.step_id = some (i + 1) ∧
            (∃ mid, st.module_id = some mid ∧ mid ∈ loaded_modules) ∧
            st.parameters = some (strategies.get ⟨i, h⟩).parameters ∧
            st.database_info = some (strategies.get ⟨i, h⟩).database_info ∧
            st.priority = some ((strategies.get ⟨i, h⟩).priority.getD 1)) ∧
      (∀ i, ∀ h : i < strategies.length, ∀ mid,
        (strategies.get ⟨i, h⟩).module_id = some mid → mid ∈ loaded_modules →
          planStepOf i (strategies.get ⟨i, h⟩) mid
            ∈ create_execution_plan loaded_modules strategies) := by
  refine ⟨List.sorted_insertionSort planAscOrder _,
    List.perm_insertionSort planAscOrder _, ?_, ?_⟩
  · intro st hst
    have hmem : st ∈ keptSteps loaded_modules strategies :=
      ((List.perm_insertionSort planAscOrder _).mem_iff).mp hst
    simp only [keptSteps, List.mem_filterMap] at hmem
    obtain ⟨p, hp, hf⟩ := hmem
    rw [List.mem_enum_iff_getElem?] at hp
    have hlt : p.1 < strategies.length := by
      have := List.getElem?_eq_some_iff.mp hp
      exact this.1
    obtain ⟨hlt', hget⟩ := List.getElem?_eq_some_iff.mp hp
    refine ⟨p.1, hlt, ?_⟩
    cases hmid : p.2.module_id with
    | none =>
      simp only [hmid] at hf
      exact Option.noConfusion hf
    | some mid =>
      simp only [hmid] at hf
      by_cases hin : mid ∈ loaded_modules
      · rw [if_pos hin] at hf
        cases hf
        refine ⟨?_, rfl, ⟨mid, rfl, hin⟩, ?_, ?_, ?_⟩
        · simp only [List.get_eq_getElem, hget, hmid, planStepOf]
        · simp only [List.get_eq_getElem, hget, planStepOf]
        · simp only [List.get_eq_getElem, hget, planStepOf]
        · simp only [List.get_eq_getElem, hget, planStepOf]
      · rw [if_neg hin] at hf
        cases hf
  · intro i h mid hmid hin
    have hperm := (List.perm_insertionSort planAscOrder
      (keptSteps loaded_modules strategies)).symm
    rw [create_execution_plan, (List.perm_insertionSort planAscOrder _).mem_iff]
    simp only [keptSteps, List.mem_filterMap]
    refine ⟨(i, strategies.get ⟨i, h⟩), ?_, ?_⟩
    · rw [List.mem_enum_iff_getElem?]
      simp [List.get_eq_getElem, List.getElem?_eq_some_iff, h]
    · rw [hmid]
      simp [hin]

/-- The dictionary returned by `ModuleExecutor.execute_module`
(src/core/module_executor.py, lines 119-168), read back by `execute_plan` with
`.get(...)` defaults; all keys are optional since a module's own `execute`
may return an arbitrary dictionary. -/
structure ModuleResultDict where
  success : Option Bool
  error : Option String
  result : Option JVal
  metadata : Option JVal
  module : Option String
  parameters : Option (List (String × JVal))

/-- The dictionary returned by a module's `validate_parameters`
(src/modules/base_module.py, lines 134-148): `valid` defaults to `True` when
absent. -/
structure ValidationDict where
  valid : Option Bool
  error : Option String

/-- The behaviour of one module instance as the dispatcher sees it:
`validate_parameters` and `execute`, each allowed to raise
(`Except.error` models a raised exception). -/
structure LoadedModuleBehavior where
  validate_parameters : List (String × JVal) → Except String ValidationDict
  execute : List (String × JVal) → Option (List (String × JVal)) →
    Except String ModuleResultDict

/-- The dispatcher's environment: the outcome of
`get_module_instance(module_id, module_config)` for each module id (`none`
models "no instance obtainable"). -/
structure ExecEnv where
  get_instance : String → Option LoadedModuleBehavior

/-- Embedding of `ModuleExecutor.execute_module` (src/core/module_executor.py,
lines 119-168): no instance, a validation failure, a raised validation
exception, and a raised execution exception each yield an error dictionary;
otherwise the module's own result dictionary is returned.  The function is
total: every exception is caught. -/
def execute_module (env : ExecEnv) (module_id : String)
    (parameters : List (String × JVal))
    (data_context : Option (List (String × JVal))) : ModuleResultDict :=
  match env.get_instance module_id with
  | none =>
    { success := some false, error := some ("无法获取模块实例: " ++ module_id)
      result := none, metadata := none, module := some module_id, parameters := none }
  | some inst =>
    match inst.validate_parameters parameters with
    | Except.error e =>
      { success := some false, error := some ("模块执行异常: " ++ e)
        result := none, metadata := none, module := some module_id
        parameters := some parameters }
    | Except.ok v =>
      if v.valid.getD true = false then
        { success := some false
          error := some ("参数验证失败: " ++ v.error.getD "未知错误")
          result := none, metadata := none, module := some module_id
          parameters := some parameters }
      else
        match inst.execute parameters data_context with
        | Except.error e =>
          { success := some false, error := some ("模块执行异常: " ++ e)
            result := none, metadata := none, module := some module_id
            parameters := some parameters }
        | Except.ok r => r

/-- One entry of the result list built by `execute_plan`
(src/core/module_executor.py, lines 326-344). -/
structure StepResultDict where
  step_id : Option Nat
  module_id : Option String
  success : Bool
  output : JVal
  error : Option String
  metadata : JVal

/-- The failure record appended by `execute_plan`'s `except` branch when a
step dictionary is missing one of the accessed keys; the exception's message
text is modelled by a fixed token. -/
def keyErrorResult (step : PlanStep) : StepResultDict :=
  { step_id := step.step_id, module_id := step.module_id, success := false
    output := JVal.str "", error := some "KeyError", metadata := JVal.dict [] }

/-- The body of `execute_plan`'s loop for one step: read the step's keys
(raising on a missing one), run `execute_module`, then build the result record
(reading `step["step_id"]` last, as the code does). -/
def execStep (env : ExecEnv) (step : PlanStep) : StepResultDict :=
  match step.module_id, step.parameters, step.database_info with
  | some mid, some params, some ctx =>
    let result := execute_module env mid params (some ctx)
    match step.step_id with
    | some sid =>
      { step_id := some sid, module_id := some mid
        success := result.success.getD false
        output := result.result.getD (JVal.str "")
        error := result.error
        metadata := result.metadata.getD (JVal.dict []) }
    | none => keyErrorResult step
  | _, _, _ => keyErrorResult step

/-- Embedding of `ModuleExecutor.execute_plan` (src/core/module_executor.py,
lines 301-346): iterate the plan in order, appending one result per step and
never aborting on a step failure. -/
def execute_plan (env : ExecEnv) (plan : List PlanStep) : List StepResultDict :=
  plan.foldl (fun results step => results ++ [execStep env step]) []

/-- The dispatcher's append-loop is the map of the per-step function over the
plan. -/
theorem execute_plan_eq_map (env : ExecEnv) (plan : List PlanStep) :
    execute_plan env plan = plan.map (execStep env) := by
  have h : ∀ (l : List PlanStep) (acc : List StepResultDict),
      l.foldl (fun results step => results ++ [execStep env step]) acc
        = acc ++ l.map (execStep env) := by
    intro l
    induction l with
    | nil => intro acc; simp
    | cons hd tl ih =>
      intro acc
      simp only [List.foldl_cons, List.map_cons, ih]
      simp
  simpa [execute_plan] using h plan []

/-- Every step's result records that step's own `step_id` (or its absence). -/
theorem execStep_step_id (env : ExecEnv) (step : PlanStep) :
    (execStep env step).step_id = step.step_id := by
  cases hm : step.module_id with
  | none => simp [execStep, keyErrorResult, hm]
  | some mid =>
    cases hp : step.parameters with
    | none => simp [execStep, keyErrorResult, hm, hp]
    | some params =>
      cases hd : step.database_info with
      | none => simp [execStep, keyErrorResult, hm, hp, hd]
      | some ctx =>
        cases hs : step.step_id with
        | none => simp [execStep, keyErrorResult, hm, hp, hd, hs]
        | some sid => simp [execStep, hm, hp, hd, hs]

/-- Amended claim C3: `execute_plan(plan)` returns exactly `len(plan)` results,
in plan order — the i-th result is the outcome of the i-th plan step alone and
reports that step's `stepId` — so a throwing or failing step is recorded as a
failed result without affecting any other step's result.  The results follow
the plan's own order (ascending priority after `create_execution_plan`), not
ascending `stepId` order. -/
theorem C3_results_match_plan (env : ExecEnv) (plan : List PlanStep) :
    (execute_plan env plan).length = plan.length ∧
      (execute_plan env plan).map (fun r => r.step_id) = plan.map (fun s => s.step_id) ∧
      (∀ i : ℕ, (execute_plan env plan)[i]? = (plan[i]?).map (execStep env)) := by
  refine ⟨?_, ?_, ?_⟩
  · simp [execute_plan_eq_map]
  · rw [execute_plan_eq_map, List.map_map]
    exact List.map_congr_left (fun step _ => execStep_step_id env step)
  · intro i
    simp [execute_plan_eq_map]

/-- Setting a key makes it readable back. -/
theorem dictGet_dictSet_self {α : Type} (d : List (String × α)) (k : String) (v : α) :
    dictGet (dictSet d k v) k = some v := by
  induction d with
  | nil => simp [dictGet, dictSet]
  | cons kv rest ih =>
    by_cases h : kv.1 = k
    · simp [dictGet, dictSet, h]
    · simp only [dictSet, if_neg h]
      simpa [dictGet, h] using ih

/-- Setting a key leaves every other key unchanged. -/
theorem dictGet_dictSet_ne {α : Type} (d : List (String × α)) (k k' : String) (v : α)
    (h : k' ≠ k) : dictGet (dictSet d k v) k' = dictGet d k' := by
  have hne : ¬ (k = k') := fun hh => h hh.symm
  induction d with
  | nil => simp [dictGet, dictSet, hne]
  | cons kv rest ih =>
    by_cases hk : kv.1 = k
    · simp [dictGet, dictSet, hk, hne]
    · simp only [dictSet, if_neg hk]
      by_cases hk' : kv.1 = k'
      · simp [dictGet, hk']
      · simpa [dictGet, hk'] using ih

/-- Re-setting the same key to the same value is a no-op. -/
theorem dictSet_dictSet_same {α : Type} (d : List (String × α)) (k : String) (v : α) :
    dictSet (dictSet d k v) k v = dictSet d k v := by
  induction d with
  | nil => simp [dictSet]
  | cons kv rest ih =>
    by_cases h : kv.1 = k
    · simp [dictSet, h]
    · simp [dictSet, h, ih]

/-- Environment for the C3 counterexample (no module instance is obtainable;
each step therefore fails, which does not affect the result cardinality). -/
def envC3 : ExecEnv :=
  { get_instance := fun _ => none }

/-- A strategy with high priority, listed first, for the C3 counterexample. -/
def stratHigh : StrategyDict :=
  { module_id := some "alpha", parameters := [], database_info := [], priority := some 5 }

/-- A strategy with low priority, listed second, for the C3 counterexample. -/
def stratLow : StrategyDict :=
  { module_id := some "beta", parameters := [], database_info := [], priority := some 1 }

/-- Claim C3's "ascending stepId order" is false on the code: after
`create_execution_plan` re-sorts a two-step plan ascending by priority, the
steps carry stepIds `[2, 1]`, and `execute_plan` returns its results in that
plan order, so the results are not in ascending stepId order. -/
theorem C3_counterexample :
    (execute_plan envC3 (create_execution_plan ["alpha", "beta"] [stratHigh, stratLow])).map
        (fun r => r.step_id) = [some 2, some 1] ∧
      ¬ List.Sorted (fun a b : ℕ => a ≤ b) [2, 1] := by
  constructor
  · decide
  · decide

/-- Witness for `C6_plan_filtered_sorted`: its membership conjunct applied to a
concrete one-strategy plan. -/
theorem C6_witness :
    planStepOf 0
        { module_id := some "mod", parameters := [], database_info := [], priority := some 2 }
        "mod"
      ∈ create_execution_plan ["mod"]
        [{ module_id := some "mod", parameters := [], database_info := [], priority := some 2 }] :=
  (C6_plan_filtered_sorted ["mod"]
      [{ module_id := some "mod", parameters := [], database_info := [], priority := some 2 }]
    ).2.2.2 0 (by simp) "mod" rfl (by simp)

/- ------------------------------------------------------------------
Module registry: `ModuleExecutor.get_module_instance` and
`ModuleExecutor.load_module_from_config` (src/core/module_executor.py,
lines 39-117).
------------------------------------------------------------------- -/

/-- A loaded module class: its identity and whether calling its constructor
raises (deterministically, as `module_class()` has no varying inputs). -/
structure ModuleClass where
  class_id : Nat
  ctor_fails : Bool
deriving DecidableEq

/-- A module instance handle; `token` models Python object identity (`id()`),
so "the identical cached instance" is equality of tokens. -/
structure ModuleInstanceRef where
  token : Nat
  class_id : Nat
deriving DecidableEq

/-- A module configuration dictionary as read by `load_module_from_config`:
`loadable` is the outcome of the dynamic import (`none` models an import
failure or a missing class, which is logged and yields `None`). -/
structure ModuleConfig where
  module_id : String
  file_path : String
  class_name : String
  loadable : Option ModuleClass
deriving DecidableEq

/-- The mutable state of a `ModuleExecutor`: the loaded class table, the
instance cache, and a fresh-identity counter (a modelling device making each
successful instantiation produce a distinct instance token). -/
structure ModuleExecutorState where
  loaded_modules : List (String × ModuleClass)
  module_instances : List (String × ModuleInstanceRef)
  next_token : Nat
deriving DecidableEq

/-- Embedding of `ModuleExecutor.load_module_from_config`
(src/core/module_executor.py, lines 39-77): on success the class is stored in
`loaded_modules` under the configuration's own `module_id`; on any failure
nothing is stored and `None` is returned. -/
def load_module_from_config (st : ModuleExecutorState) (config : ModuleConfig) :
    Option ModuleClass × ModuleExecutorState :=
  if config.file_path = "" ∨ config.class_name = "" then
    (none, st)
  else
    match config.loadable with
    | none => (none, st)
    | some cls =>
      (some cls,
        { st with loaded_modules := dictSet st.loaded_modules config.module_id cls })

/-- Embedding of `ModuleExecutor.get_module_instance`
(src/core/module_executor.py, lines 79-117): return the cached instance if
present; else instantiate a loaded class and cache the instance; else try to
load from the configuration and instantiate; a constructor or load failure
returns `None` without caching anything. -/
def get_module_instance (st : ModuleExecutorState) (module_id : String)
    (module_config : Option ModuleConfig) :
    Option ModuleInstanceRef × ModuleExecutorState :=
  match dictGet st.module_instances module_id with
  | some inst => (some inst, st)
  | none =>
    match dictGet st.loaded_modules module_id with
    | some cls =>
      if cls.ctor_fails then (none, st)
      else
        let inst : ModuleInstanceRef := { token := st.next_token, class_id := cls.class_id }
        (some inst,
          { st with
              module_instances := dictSet st.module_instances module_id inst
              next_token := st.next_token + 1 })
    | none =>
      match module_config with
      | none => (none, st)
      | some config =>
        match load_module_from_config st config with
        | (some cls, st2) =>
          if cls.ctor_fails then (none, st2)
          else
            let inst : ModuleInstanceRef := { token := st2.next_token, class_id := cls.class_id }
            (some inst,
              { st2 with
                  module_instances := dictSet st2.module_instances module_id inst
                  next_token := st2.next_token + 1 })
        | (none, st2) => (none, st2)

/-- A failed load leaves the state unchanged. -/
theorem load_module_from_config_none (st : ModuleExecutorState) (config : ModuleConfig)
    (h : (load_module_from_config st config).1 = none) :
    (load_module_from_config st config).2 = st := by
  unfold load_module_from_config at h ⊢
  by_cases hc : config.file_path = "" ∨ config.class_name = ""
  · rw [if_pos hc]
  · rw [if_neg hc] at h ⊢
    cases hl : config.loadable with
    | none => rfl
    | some cls =>
      rw [hl] at h
      exact Option.noConfusion h

/-- Claim C7: `get_module_instance` is idempotent — a second call with the same
module id and configuration, and no intervening re-registration, returns the
very same result (in particular the identical cached instance token when the
first call succeeded) and leaves the state untouched, so the class is
instantiated at most once per module id. -/
theorem C7_get_idempotent (st : ModuleExecutorState) (module_id : String)
    (module_config : Option ModuleConfig) :
    get_module_instance (get_module_instance st module_id module_config).2 module_id
        module_config
      = get_module_instance st module_id module_config := by
  rcases hinst : dictGet st.module_instances module_id with _ | inst
  case some =>
    simp [get_module_instance, hinst]
  case none =>
  rcases hcls : dictGet st.loaded_modules module_id with _ | cls
  case some =>
    by_cases hf : cls.ctor_fails
    · simp [get_module_instance, hinst, hcls, hf]
    · simp only [get_module_instance, hinst, hcls, if_neg hf]
      simp [get_module_instance, dictGet_dictSet_self]
  case none =>
  rcases module_config with _ | config
  · simp [get_module_instance, hinst, hcls]
  rcases hload : load_module_from_config st config with ⟨r, st2⟩
  rcases r with _ | cls
  · have hst2 : st2 = st := by
      have := load_module_from_config_none st config (by rw [hload])
      rwa [hload] at this
    subst hst2
    simp [get_module_instance, hinst, hcls, hload]
  · have hst2 : st2 = { st with
        loaded_modules := dictSet st.loaded_modules config.module_id cls } := by
      unfold load_module_from_config at hload
      split at hload
      · cases hload
      · cases hl : config.loadable with
        | none => rw [hl] at hload; cases hload
        | some cls2 =>
          rw [hl] at hload
          cases hload
          rfl
    have hcfgload : config.loadable = some cls := by
      unfold load_module_from_config at hload
      split at hload
      · cases hload
      · cases hl : config.loadable with
        | none => rw [hl] at hload; cases hload
        | some cls2 =>
          rw [hl] at hload
          cases hload
          rfl
    have hcfgok : ¬ (config.file_path = "" ∨ config.class_name = "") := by
      by_cases hc : config.file_path = "" ∨ config.class_name = ""
      · exfalso
        unfold load_module_from_config at hload
        rw [if_pos hc] at hload
        cases hload
      · exact hc
    by_cases hf : cls.ctor_fails
    · -- the class was stored but construction failed; the second call takes the
      -- loaded-class branch (same id) or reloads to the identical state
      simp only [get_module_instance, hinst, hcls, hload, if_pos hf]
      subst hst2
      by_cases hid : config.module_id = module_id
      · subst hid
        simp [get_module_instance, hinst, dictGet_dictSet_self, hf]
      · have hget2 : dictGet (dictSet st.loaded_modules config.module_id cls) module_id
            = none := by
          rw [dictGet_dictSet_ne _ _ _ _ (fun hh => hid hh.symm)]
          exact hcls
        simp only [get_module_instance, hinst, hget2]
        have hload2 : load_module_from_config
            { st with loaded_modules := dictSet st.loaded_modules config.module_id cls }
            config
            = (some cls,
              { st with loaded_modules := dictSet st.loaded_modules config.module_id cls }) := by
          unfold load_module_from_config
          rw [if_neg hcfgok, hcfgload]
          simp [dictSet_dictSet_same]
        simp [hload2, hf]
    · simp only [get_module_instance, hinst, hcls, hload, if_neg hf]
      simp [get_module_instance, dictGet_dictSet_self]

/- ------------------------------------------------------------------
Intent parser: `IntentParser.parse_intent`, `_validate_and_normalize_result`,
`_rule_based_parsing` (src/agents/intent_parser.py, lines 53-297).
------------------------------------------------------------------- -/

/-- Python `bool(v)` truthiness on a dynamic value. -/
def pyTruthy : JVal → Bool
  | JVal.num q => decide (q ≠ 0)
  | JVal.str s => s ≠ ""
  | JVal.bool b => b
  | JVal.list elems => !elems.isEmpty
  | JVal.dict entries => !entries.isEmpty
  | JVal.null => false

/-- Python `float(v)` on a dynamic value; `float_of_str` is an oracle for the
outcome of `float(...)` on a string literal, and non-numeric values raise. -/
def pyFloat (float_of_str : String → Option ℚ) : JVal → Except String ℚ
  | JVal.num q => Except.ok q
  | JVal.bool b => Except.ok (if b then 1 else 0)
  | JVal.str s =>
    match float_of_str s with
    | some q => Except.ok q
    | none => Except.error "could not convert string to float"
  | JVal.list _ => Except.error "float() argument must be a string or a real number"
  | JVal.dict _ => Except.error "float() argument must be a string or a real number"
  | JVal.null => Except.error "float() argument must be a string or a real number"

/-- The LLM's JSON reply as consumed by `_validate_and_normalize_result`: every
field is read with `.get(...)`, and the presence of an `error` key marks a
failed JSON parse inside `parse_json_response` (src/llm/glm.py, lines 86-118). -/
structure IntentJson where
  error : Option JVal
  intent : Option JVal
  confidence : Option JVal
  reason : Option JVal
  need_data_analysis : Option JVal
  analysis_type : Option JVal
  target_fields : Option JVal
  time_dimension : Option JVal
  grouping_fields : Option JVal
  comparison_type : Option JVal
  keywords : Option JVal
  complexity : Option JVal

/-- The dictionary returned by `parse_intent`: `intent` is always one of the
six valid intents or `general_chat`, `confidence` is a float, `need_data_analysis`
a bool; the remaining keys carry through the raw values (typed values on the
rule-based path). -/
structure ParsedIntent where
  intent : String
  confidence : ℚ
  reason : JVal
  need_data_analysis : Bool
  analysis_type : JVal
  target_fields : JVal
  time_dimension : JVal
  grouping_fields : JVal
  comparison_type : JVal
  keywords : JVal
  complexity : JVal

/-- Embedding of `IntentParser._extract_keywords` (src/agents/intent_parser.py,
lines 255-279). -/
def extract_keywords (text : String) : List String :=
  let data_keywords := ["销售", "收入", "利润", "用户", "订单", "产品", "类别", "地区",
    "时间", "日期", "sales", "revenue", "profit", "user", "order", "product",
    "category", "region", "time", "date"]
  data_keywords.filter (fun k => pyIn k (strLower text))

/-- Embedding of `IntentParser._rule_based_parsing` (src/agents/intent_parser.py,
lines 190-253): the deterministic keyword classifier used as fallback. -/
def rule_based_parsing (user_question : String) : ParsedIntent :=
  let question_lower := strLower user_question
  let query_keywords := ["数据", "有什么", "查看", "显示", "列出", "销量", "表现", "业绩",
    "data", "show", "list", "sales", "performance"]
  let analysis_keywords := ["分析", "趋势", "变化", "增长", "下降", "analysis", "trend",
    "growth"]
  let comparison_keywords := ["对比", "比较", "同比", "环比", "compare", "comparison", "yoy"]
  let segmentation_keywords := ["分组", "细分", "按", "分类", "segment", "group", "category"]
  let hit := fun (kws : List String) => kws.any (fun k => pyIn k question_lower)
  let classified : String × String × Bool × String :=
    if hit comparison_keywords then ("data_comparison", "yoy_comparison", true, "medium")
    else if hit segmentation_keywords then ("data_segmentation", "segmentation", true, "medium")
    else if hit analysis_keywords then ("data_analysis", "trend_analysis", true, "medium")
    else if hit query_keywords then ("data_query", "statistical_summary", true, "simple")
    else ("general_chat", "none", false, "simple")
  { intent := classified.1
    confidence := 7/10
    reason := JVal.str "基于关键词规则匹配"
    need_data_analysis := classified.2.2.1
    analysis_type := JVal.str classified.2.1
    target_fields := JVal.list []
    time_dimension := JVal.str ""
    grouping_fields := JVal.list []
    comparison_type := JVal.str ""
    keywords := JVal.list ((extract_keywords user_question).map JVal.str)
    complexity := JVal.str classified.2.2.2 }

/-- Embedding of `IntentParser._validate_and_normalize_result`
(src/agents/intent_parser.py, lines 147-188): an `error` key falls back to the
rule-based parser; otherwise the fields are normalized, where
`float(result.get("confidence", 0.5))` may raise (`Except.error`). -/
def validate_and_normalize_result (float_of_str : String → Option ℚ)
    (result : IntentJson) (user_question : String) : Except String ParsedIntent :=
  if result.error.isSome then
    Except.ok (rule_based_parsing user_question)
  else
    match pyFloat float_of_str (result.confidence.getD (JVal.num (1/2))) with
    | Except.error e => Except.error e
    | Except.ok conf =>
      let conf2 := if ¬ (0 ≤ conf ∧ conf ≤ 1) then (1/2 : ℚ) else conf
      let valid_intents := ["data_query", "data_analysis", "data_comparison",
        "data_segmentation", "general_chat", "help_request"]
      let intent1 :=
        match result.intent.getD (JVal.str "general_chat") with
        | JVal.str s => if s ∈ valid_intents then s else "general_chat"
        | _ => "general_chat"
      Except.ok
        { intent := intent1
          confidence := conf2
          reason := result.reason.getD (JVal.str "基于语义分析")
          need_data_analysis := pyTruthy (result.need_data_analysis.getD (JVal.bool false))
          analysis_type := result.analysis_type.getD (JVal.str "none")
          target_fields := result.target_fields.getD (JVal.list [])
          time_dimension := result.time_dimension.getD (JVal.str "")
          grouping_fields := result.grouping_fields.getD (JVal.list [])
          comparison_type := result.comparison_type.getD (JVal.str "")
          keywords := result.keywords.getD (JVal.list [])
          complexity := result.complexity.getD (JVal.str "simple") }

/-- Embedding of `IntentParser._get_fallback_result` (src/agents/intent_parser.py,
lines 281-297): the rule-based result with its reason annotated and the
confidence lowered to 0.6. -/
def get_fallback_result (user_question error_message : String) : ParsedIntent :=
  { rule_based_parsing user_question with
      reason := JVal.str ("LLM解析失败，使用规则解析: " ++ error_message)
      confidence := 3/5 }

/-- Embedding of `IntentParser.parse_intent` (src/agents/intent_parser.py,
lines 53-79).  `llm_response` models the combined outcome of building the
prompt and calling `glm_client.parse_json_response`: `Except.error` is any
exception raised inside the `try` (client initialization, prompt building, or
normalization), `Except.ok` is the parsed JSON dictionary (which carries an
`error` key when the JSON itself was malformed).  The function is total —
every failure path returns a rule-based fallback result. -/
def parse_intent (float_of_str : String → Option ℚ)
    (llm_response : Except String IntentJson) (user_question : String) : ParsedIntent :=
  match llm_response with
  | Except.error e => get_fallback_result user_question e
  | Except.ok result =>
    match validate_and_normalize_result float_of_str result user_question with
    | Except.error e => get_fallback_result user_question e
    | Except.ok parsed => parsed

/-- Claim C8: `parse_intent` never propagates an LLM failure.  When the call
throws, the result is the rule-based classification (with only the reason and
confidence annotated); when the reply carries an `error` key (malformed JSON),
the result is exactly the rule-based classification; when normalization itself
raises, the rule-based fallback is returned; and in the throw case every
classification field agrees with the rule-based classifier. -/
theorem C8_fallback_on_llm_failure (float_of_str : String → Option ℚ)
    (user_question : String) :
    (∀ e : String,
      parse_intent float_of_str (Except.error e) user_question
        = { rule_based_parsing user_question with
            reason := JVal.str ("LLM解析失败，使用规则解析: " ++ e)
            confidence := 3/5 }) ∧
      (∀ result : IntentJson, result.error.isSome = true →
        parse_intent float_of_str (Except.ok result) user_question
          = rule_based_parsing user_question) ∧
      (∀ result : IntentJson, ∀ e : String,
        validate_and_normalize_result float_of_str result user_question = Except.error e →
          parse_intent float_of_str (Except.ok result) user_question
            = { rule_based_parsing user_question with
                reason := JVal.str ("LLM解析失败，使用规则解析: " ++ e)
                confidence := 3/5 }) ∧
      (∀ e : String,
        (parse_intent float_of_str (Except.error e) user_question).intent
            = (rule_based_parsing user_question).intent ∧
          (parse_intent float_of_str (Except.error e) user_question).need_data_analysis
            = (rule_based_parsing user_question).need_data_analysis ∧
          (parse_intent float_of_str (Except.error e) user_question).analysis_type
            = (rule_based_parsing user_question).analysis_type ∧
          (parse_intent float_of_str (Except.error e) user_question).keywords
            = (rule_based_parsing user_question).keywords) := by
  refine ⟨fun e => rfl, ?_, ?_, fun e => ⟨rfl, rfl, rfl, rfl⟩⟩
  · intro result h
    simp only [parse_intent, validate_and_normalize_result, if_pos h]
  · intro result e hval
    simp only [parse_intent, hval, get_fallback_result]

/-- Malformed-JSON reply used by the C8 witness: `parse_json_response` returned
a dictionary with an `error` key. -/
def errJsonC8 : IntentJson :=
  { error := some (JVal.str "JSON解析失败")
    intent := none, confidence := none, reason := none, need_data_analysis := none
    analysis_type := none, target_fields := none, time_dimension := none
    grouping_fields := none, comparison_type := none, keywords := none
    complexity := none }

/-- Witness for `C8_fallback_on_llm_failure`: on the malformed-JSON reply the
parser returns the rule-based result for a concrete question. -/
theorem C8_witness :
    errJsonC8.error.isSome = true ∧
      parse_intent (fun _ => none) (Except.ok errJsonC8) "分析一下销售趋势"
        = rule_based_parsing "分析一下销售趋势" :=
  ⟨rfl, (C8_fallback_on_llm_failure (fun _ => none) "分析一下销售趋势").2.1 errJsonC8 rfl⟩

/- ------------------------------------------------------------------
Workflow router: `GraphBuilder.should_use_walker`
(src/core/graph_builder.py, lines 504-528).
------------------------------------------------------------------- -/

/-- The slice of the workflow state read by the router: the intent result (the
dictionary produced by `parse_intent`), absent before intent recognition.  The
router also reads `need_data_analysis` but never uses it. -/
structure GraphState where
  intent_result : Option ParsedIntent

/-- Embedding of `GraphBuilder.should_use_walker` (src/core/graph_builder.py,
lines 504-528): `query_only` routes to the SQL agent, `data_analysis` to the
walker strategy, everything else (and a missing intent result) to response
generation. -/
def should_use_walker (state : GraphState) : String :=
  let intent :=
    match state.intent_result with
    | some r => r.intent
    | none => "general_chat"
  if intent = "query_only" then "sql_agent"
  else if intent = "data_analysis" then "walker_strategy"
  else "response_generation"

/-- Claim C9: the router maps `query_only` to `sql_agent`, `data_analysis` to
`walker_strategy`, and everything else (including a missing intent result) to
`response_generation`; and its output depends only on the classified intent. -/
theorem C9_routing :
    (∀ s : GraphState, ∀ r : ParsedIntent, s.intent_result = some r →
        (r.intent = "query_only" → should_use_walker s = "sql_agent") ∧
          (r.intent = "data_analysis" → should_use_walker s = "walker_strategy") ∧
          (r.intent ≠ "query_only" → r.intent ≠ "data_analysis" →
            should_use_walker s = "response_generation")) ∧
      (∀ s : GraphState, s.intent_result = none →
        should_use_walker s = "response_generation") ∧
      (∀ s₁ s₂ : GraphState,
        (s₁.intent_result.map (fun r => r.intent)).getD "general_chat"
            = (s₂.intent_result.map (fun r => r.intent)).getD "general_chat" →
          should_use_walker s₁ = should_use_walker s₂) := by
  have key : ∀ s : GraphState,
      (match s.intent_result with
        | some r => r.intent
        | none => "general_chat")
        = (s.intent_result.map (fun r => r.intent)).getD "general_chat" := by
    intro s
    cases s.intent_result <;> rfl
  refine ⟨?_, ?_, ?_⟩
  · intro s r h
    refine ⟨fun hi => ?_, fun hi => ?_, fun h1 h2 => ?_⟩
    · simp [should_use_walker, h, hi]
    · simp only [should_use_walker, h, hi]
      rw [if_neg (by decide)]
      simp
    · simp only [should_use_walker, h]
      rw [if_neg h1, if_neg h2]
  · intro s h
    simp only [should_use_walker, h]
    rw [if_neg (by decide), if_neg (by decide)]
  · intro s1 s2 h12
    simp only [should_use_walker, key, h12]

/-- Intent result with a direct-query classification, for the C9 witness. -/
def queryIntentC9 : ParsedIntent :=
  { intent := "query_only", confidence := 1/2, reason := JVal.str ""
    need_data_analysis := true, analysis_type := JVal.str "none"
    target_fields := JVal.list [], time_dimension := JVal.str ""
    grouping_fields := JVal.list [], comparison_type := JVal.str ""
    keywords := JVal.list [], complexity := JVal.str "simple" }

/-- Witness for `C9_routing`: a `query_only` state routes to the SQL agent. -/
theorem C9_witness :
    should_use_walker { intent_result := some queryIntentC9 } = "sql_agent" :=
  ((C9_routing.1 { intent_result := some queryIntentC9 } queryIntentC9 rfl).1) rfl

/- ------------------------------------------------------------------
Module base class: `BaseAnalysisModule.execute` and `_handle_error`
(src/modules/base_module.py, lines 75-132 and 249-265).
------------------------------------------------------------------- -/

/-- The three-phase contract of an analysis module as `execute` drives it:
`prepare_data`, `run`, `summarize`, each allowed to raise (`Except.error`). -/
structure ModulePhases where
  module_name : String
  prepare_data : Option JVal → List (String × JVal) → Except String JVal
  run : JVal → List (String × JVal) → Except String (List (String × JVal))
  summarize : List (String × JVal) → Except String String

/-- Embedding of `BaseAnalysisModule._convert_to_serializable`
(src/modules/base_module.py, lines 267-300): the DataFrame/numpy branches are
vacuous on the modelled values, and the dict/list recursion rebuilds the value
unchanged, so on `JVal` the conversion is the identity. -/
def convert_to_serializable (data : JVal) : JVal :=
  data

/-- The standardized result dictionary of `BaseAnalysisModule.execute`; the
keys absent on the error path are `Option` fields. -/
structure ExecuteResult where
  success : Bool
  module : String
  parameters : List (String × JVal)
  data : Option JVal
  analysis : Option JVal
  visualization : Option JVal
  insights : Option JVal
  summary : Option String
  error : Option String

/-- Embedding of `BaseAnalysisModule._handle_error`
(src/modules/base_module.py, lines 249-265). -/
def handle_error (m : ModulePhases) (error : String)
    (parameters : List (String × JVal)) : ExecuteResult :=
  { success := false
    error := some (m.module_name ++ "执行失败: " ++ error)
    module := m.module_name
    parameters := parameters
    data := none, analysis := none, visualization := none, insights := none
    summary := none }

/-- Embedding of `BaseAnalysisModule.execute` (src/modules/base_module.py,
lines 75-132): run the three phases inside one `try`; any raise is converted by
`_handle_error` into a failure dictionary, so the function is total. -/
def module_execute (m : ModulePhases) (parameters : List (String × JVal))
    (data_context : Option (List (String × JVal))) : ExecuteResult :=
  let db_connector := data_context.bind (fun ctx => dictGet ctx "db_connector")
  match m.prepare_data db_connector parameters with
  | Except.error e => handle_error m e parameters
  | Except.ok data =>
    match m.run data parameters with
    | Except.error e => handle_error m e parameters
    | Except.ok results =>
      match m.summarize results with
      | Except.error e => handle_error m e parameters
      | Except.ok summary =>
        { success := true
          module := m.module_name
          parameters := parameters
          data := some (convert_to_serializable ((dictGet results "data").getD (JVal.list [])))
          analysis := some ((dictGet results "analysis").getD (JVal.dict []))
          visualization := some ((dictGet results "visualization").getD (JVal.dict []))
          insights := some ((dictGet results "insights").getD (JVal.list []))
          summary := some summary
          error := none }

/-- The error message built by `_handle_error` is never the empty string. -/
theorem handle_error_message_ne (a b : String) : a ++ "执行失败: " ++ b ≠ "" := by
  intro h
  have hlen : (a ++ "执行失败: " ++ b).length = 0 := by
    rw [h]
    rfl
  rw [String.length_append, String.length_append] at hlen
  have h6 : ("执行失败: " : String).length = 6 := rfl
  omega

/-- Claim C10: `execute` never propagates an exception.  The result always
carries the module name and the input parameters; on failure the error string
is present and non-empty; and success means all three phases succeeded, with
the summary being exactly the `summarize` output. -/
theorem C10_execute_contains_errors (m : ModulePhases)
    (parameters : List (String × JVal))
    (data_context : Option (List (String × JVal))) :
    ((module_execute m parameters data_context).module = m.module_name ∧
        (module_execute m parameters data_context).parameters = parameters) ∧
      ((module_execute m parameters data_context).success = false →
        ∃ e, (module_execute m parameters data_context).error = some e ∧ e ≠ "") ∧
      ((module_execute m parameters data_context).success = true →
        ∃ data results summary,
          m.prepare_data (data_context.bind (fun ctx => dictGet ctx "db_connector"))
              parameters = Except.ok data ∧
            m.run data parameters = Except.ok results ∧
            m.summarize results = Except.ok summary ∧
            (module_execute m parameters data_context).summary = some summary ∧
            (module_execute m parameters data_context).error = none) := by
  cases hp : m.prepare_data (data_context.bind (fun ctx => dictGet ctx "db_connector"))
      parameters with
  | error e =>
    refine ⟨⟨?_, ?_⟩, ?_, ?_⟩
    · simp [module_execute, hp, handle_error]
    · simp [module_execute, hp, handle_error]
    · intro _
      refine ⟨m.module_name ++ "执行失败: " ++ e, ?_, handle_error_message_ne _ _⟩
      simp [module_execute, hp, handle_error]
    · intro hs
      exfalso
      simp [module_execute, hp, handle_error] at hs
  | ok data =>
    cases hr : m.run data parameters with
    | error e =>
      refine ⟨⟨?_, ?_⟩, ?_, ?_⟩
      · simp [module_execute, hp, hr, handle_error]
      · simp [module_execute, hp, hr, handle_error]
      · intro _
        refine ⟨m.module_name ++ "执行失败: " ++ e, ?_, handle_error_message_ne _ _⟩
        simp [module_execute, hp, hr, handle_error]
      · intro hs
        exfalso
        simp [module_execute, hp, hr, handle_error] at hs
    | ok results =>
      cases hsum : m.summarize results with
      | error e =>
        refine ⟨⟨?_, ?_⟩, ?_, ?_⟩
        · simp [module_execute, hp, hr, hsum, handle_error]
        · simp [module_execute, hp, hr, hsum, handle_error]
        · intro _
          refine ⟨m.module_name ++ "执行失败: " ++ e, ?_, handle_error_message_ne _ _⟩
          simp [module_execute, hp, hr, hsum, handle_error]
        · intro hs
          exfalso
          simp [module_execute, hp, hr, hsum, handle_error] at hs
      | ok summary =>
        refine ⟨⟨?_, ?_⟩, ?_, ?_⟩
        · simp [module_execute, hp, hr, hsum]
        · simp [module_execute, hp, hr, hsum]
        · intro hs
          exfalso
          simp [module_execute, hp, hr, hsum] at hs
        · intro _
          refine ⟨data, results, summary, rfl, hr, hsum, ?_, ?_⟩
          · simp [module_execute, hp, hr, hsum]
          · simp [module_execute, hp, hr, hsum]

/-- A module whose `run` phase raises, for the C10 witness (spec Scenario D's
`DataAccessError` flavor). -/
def failingRunModule : ModulePhases :=
  { module_name := "趋势分析"
    prepare_data := fun _ _ => Except.ok JVal.null
    run := fun _ _ => Except.error "DataAccessError"
    summarize := fun _ => Except.ok "" }

/-- Witness for `C10_execute_contains_errors`: the failing-run module yields a
non-empty error string instead of propagating the exception. -/
theorem C10_witness :
    ∃ e, (module_execute failingRunModule [] none).error = some e ∧ e ≠ "" :=
  (C10_execute_contains_errors failingRunModule [] none).2.1 rfl
